import Mathlib

/-!
Shallow embedding of the Trust Cars 4U backend (`src/main.py`, `src/schemas.py`):
a FastAPI app with password hashing (SHA-256 over salt ++ UTF-8 password),
signup/login, an in-memory token registry, and per-user appointment booking.

Machine-level collaborators are embedded executably:
* bytes are `Nat` values `< 256`, `bytes.fromhex` / `bytes.hex` are modelled
  with Python's exact semantics (ASCII whitespace skipping between byte pairs,
  lowercase rendering);
* `hashlib.sha256` is a full executable SHA-256 over byte lists;
* `str.encode()` is UTF-8 encoding of the string's code points;
* randomness (`secrets.token_bytes`, `secrets.token_hex`) is passed in as
  explicit entropy arguments;
* MongoDB collections are lists of records, `insert_one` appends,
  `find_one` returns the first match, `find(..).sort(k, 1)` filters and sorts.
-/

namespace TrustCars

/-! ## Bytes and hex (Python `bytes.hex` / `bytes.fromhex`) -/

/-- Lowercase hex digit for a nibble, as in Python's `bytes.hex()`. -/
def hexChar (n : Nat) : Char :=
  if n < 10 then Char.ofNat (48 + n) else Char.ofNat (87 + n)

/-- Python `bytes.hex()` on a byte list: two lowercase hex digits per byte. -/
def bytesToHexList : List Nat → List Char
  | [] => []
  | b :: bs => hexChar (b / 16) :: hexChar (b % 16) :: bytesToHexList bs

/-- Python `bytes.hex()`, rendered as a string. -/
def bytesToHex (bs : List Nat) : String := ⟨bytesToHexList bs⟩

/-- Hex digit value, accepting both cases, as `bytes.fromhex` does. -/
def hexVal (c : Char) : Option Nat :=
  if '0' ≤ c ∧ c ≤ '9' then some (c.toNat - 48)
  else if 'a' ≤ c ∧ c ≤ 'f' then some (c.toNat - 87)
  else if 'A' ≤ c ∧ c ≤ 'F' then some (c.toNat - 55)
  else none

/-- ASCII whitespace that `bytes.fromhex` skips between byte pairs. -/
def isHexWs (c : Char) : Bool :=
  c == ' ' || c == '\t' || c == '\n' || c == '\x0b' || c == '\x0c' || c == '\r'

/-- Python `bytes.fromhex` on a character list: whitespace may separate byte pairs,
each pair must be two consecutive hex digits; anything else raises
`ValueError` (modelled as `none`). -/
def bytesFromHexList : List Char → Option (List Nat)
  | [] => some []
  | c :: cs =>
    if isHexWs c then bytesFromHexList cs
    else
      match cs with
      | [] => none
      | c2 :: rest =>
        match hexVal c, hexVal c2 with
        | some hi, some lo => (bytesFromHexList rest).map (fun t => (hi * 16 + lo) :: t)
        | _, _ => none

/-- Python `bytes.fromhex` on a string. -/
def bytesFromHex (s : String) : Option (List Nat) := bytesFromHexList s.data

/-! ## UTF-8 encoding (Python `str.encode()`) -/

/-- UTF-8 bytes of one code point. -/
def utf8Bytes (c : Char) : List Nat :=
  let n := c.toNat
  if n < 0x80 then [n]
  else if n < 0x800 then
    [0xC0 ||| (n >>> 6), 0x80 ||| (n &&& 0x3F)]
  else if n < 0x10000 then
    [0xE0 ||| (n >>> 12), 0x80 ||| ((n >>> 6) &&& 0x3F), 0x80 ||| (n &&& 0x3F)]
  else
    [0xF0 ||| (n >>> 18), 0x80 ||| ((n >>> 12) &&& 0x3F),
     0x80 ||| ((n >>> 6) &&& 0x3F), 0x80 ||| (n &&& 0x3F)]

/-- UTF-8 bytes of a character list. -/
def utf8EncodeList : List Char → List Nat
  | [] => []
  | c :: cs => utf8Bytes c ++ utf8EncodeList cs

/-- Python `s.encode()`: UTF-8 bytes of a string. -/
def utf8Encode (s : String) : List Nat := utf8EncodeList s.data

/-! ## SHA-256 (`hashlib.sha256`), executable over byte lists -/

/-- Truncate to a 32-bit word. -/
def w32 (n : Nat) : Nat := n % 4294967296

/-- 32-bit modular addition. -/
def add32 (a b : Nat) : Nat := (a + b) % 4294967296

/-- 32-bit right rotation. -/
def rotr (n x : Nat) : Nat := ((x >>> n) ||| (x <<< (32 - n))) % 4294967296

/-- SHA-256 Ch function. -/
def shaCh (x y z : Nat) : Nat := (x &&& y) ^^^ ((x ^^^ 0xFFFFFFFF) &&& z)

/-- SHA-256 Maj function. -/
def shaMaj (x y z : Nat) : Nat := (x &&& y) ^^^ (x &&& z) ^^^ (y &&& z)

/-- SHA-256 big sigma 0. -/
def bsig0 (x : Nat) : Nat := rotr 2 x ^^^ rotr 13 x ^^^ rotr 22 x

/-- SHA-256 big sigma 1. -/
def bsig1 (x : Nat) : Nat := rotr 6 x ^^^ rotr 11 x ^^^ rotr 25 x

/-- SHA-256 small sigma 0. -/
def ssig0 (x : Nat) : Nat := rotr 7 x ^^^ rotr 18 x ^^^ (x >>> 3)

/-- SHA-256 small sigma 1. -/
def ssig1 (x : Nat) : Nat := rotr 17 x ^^^ rotr 19 x ^^^ (x >>> 10)

/-- The 64 SHA-256 round constants (FIPS 180-4, written in decimal). -/
def shaK : List Nat :=
  [1116352408, 1899447441, 3049323471, 3921009573, 961987163, 1508970993,
   2453635748, 2870763221, 3624381080, 310598401, 607225278, 1426881987,
   1925078388, 2162078206, 2614888103, 3248222580, 3835390401, 4022224774,
   264347078, 604807628, 770255983, 1249150122, 1555081692, 1996064986,
   2554220882, 2821834349, 2952996808, 3210313671, 3336571891, 3584528711,
   113926993, 338241895, 666307205, 773529912, 1294757372, 1396182291,
   1695183700, 1986661051, 2177026350, 2456956037, 2730485921, 2820302411,
   3259730800, 3345764771, 3516065817, 3600352804, 4094571909, 275423344,
   430227734, 506948616, 659060556, 883997877, 958139571, 1322822218,
   1537002063, 1747873779, 1955562222, 2024104815, 2227730452, 2361852424,
   2428436474, 2756734187, 3204031479, 3329325298]

/-- SHA-256 working state: eight 32-bit words. -/
structure SHAState where
  a : Nat
  b : Nat
  c : Nat
  d : Nat
  e : Nat
  f : Nat
  g : Nat
  h : Nat
deriving Repr, DecidableEq

/-- SHA-256 initial hash value (FIPS 180-4, written in decimal). -/
def shaH0 : SHAState :=
  ⟨1779033703, 3144134277, 1013904242, 2773480762,
   1359893119, 2600822924, 528734635, 1541459225⟩

/-- Big-endian 8-byte rendering of the message bit length. -/
def be64 (n : Nat) : List Nat :=
  [(n >>> 56) % 256, (n >>> 48) % 256, (n >>> 40) % 256, (n >>> 32) % 256,
   (n >>> 24) % 256, (n >>> 16) % 256, (n >>> 8) % 256, n % 256]

/-- Big-endian 4-byte rendering of a 32-bit word. -/
def be32 (n : Nat) : List Nat :=
  [(n >>> 24) % 256, (n >>> 16) % 256, (n >>> 8) % 256, n % 256]

/-- SHA-256 padding: append `0x80`, zero bytes to 56 mod 64, then the
64-bit big-endian bit length. -/
def sha256pad (msg : List Nat) : List Nat :=
  let padlen := (119 - msg.length % 64) % 64
  msg ++ [0x80] ++ List.replicate padlen 0 ++ be64 (8 * msg.length)

/-- Split into 64-byte blocks (fuel-driven; the fuel bounds the length). -/
def chunks64 : Nat → List Nat → List (List Nat)
  | 0, _ => []
  | _, [] => []
  | fuel + 1, l => l.take 64 :: chunks64 fuel (l.drop 64)

/-- Big-endian 32-bit words of a block. -/
def bytesToWords : List Nat → List Nat
  | a :: b :: c :: d :: rest =>
    ((a <<< 24) ||| (b <<< 16) ||| (c <<< 8) ||| d) :: bytesToWords rest
  | _ => []

/-- Extend the message schedule by `n` further words. -/
def scheduleExt : Nat → Array Nat → Array Nat
  | 0, ws => ws
  | n + 1, ws =>
    let i := ws.size
    let word := add32 (add32 (ssig1 (ws.getD (i - 2) 0)) (ws.getD (i - 7) 0))
                      (add32 (ssig0 (ws.getD (i - 15) 0)) (ws.getD (i - 16) 0))
    scheduleExt n (ws.push word)

/-- The 64-word message schedule of a block. -/
def schedule (block : List Nat) : List Nat :=
  (scheduleExt 48 (bytesToWords block).toArray).toList

/-- One SHA-256 round. -/
def shaRound (st : SHAState) (k w : Nat) : SHAState :=
  let t1 := add32 st.h (add32 (bsig1 st.e) (add32 (shaCh st.e st.f st.g) (add32 k w)))
  let t2 := add32 (bsig0 st.a) (shaMaj st.a st.b st.c)
  ⟨add32 t1 t2, st.a, st.b, st.c, add32 st.d t1, st.e, st.f, st.g⟩

/-- Compress one 64-byte block into the running state. -/
def compressBlock (st : SHAState) (block : List Nat) : SHAState :=
  let fin := (shaK.zip (schedule block)).foldl
    (fun s kw => shaRound s kw.1 kw.2) st
  ⟨add32 st.a fin.a, add32 st.b fin.b, add32 st.c fin.c, add32 st.d fin.d,
   add32 st.e fin.e, add32 st.f fin.f, add32 st.g fin.g, add32 st.h fin.h⟩

/-- The digest bytes of a final state: eight words, big-endian. -/
def shaOut (st : SHAState) : List Nat :=
  be32 st.a ++ be32 st.b ++ be32 st.c ++ be32 st.d ++
  be32 st.e ++ be32 st.f ++ be32 st.g ++ be32 st.h

/-- SHA-256 digest of a byte list, as its 32 digest bytes. -/
def sha256 (msg : List Nat) : List Nat :=
  let padded := sha256pad msg
  shaOut ((chunks64 padded.length padded).foldl compressBlock shaH0)

/-! ## Credential hasher (`hash_password` in `src/main.py`) -/

/-- The `bytes.fromhex` failure (`ValueError`), the hasher's only failure mode;
the spec's taxonomy calls it `ValidationError`. -/
inductive HasherError
  | invalidHex
deriving DecidableEq, Repr

/-- Python `hash_password(password, salt_hex=None)`: decode the salt from hex when a
truthy salt string is given, otherwise use fresh entropy
(`secrets.token_bytes(16)`, passed in explicitly); digest is
`sha256(salt + password.encode()).hexdigest()`; returns `(digest, salt.hex())`. -/
def hash_password (entropy : List Nat) (password : String)
    (salt_hex : Option String) : Except HasherError (String × String) :=
  let saltR : Except HasherError (List Nat) :=
    match salt_hex with
    | some s =>
      if s ≠ "" then
        match bytesFromHex s with
        | some bs => .ok bs
        | none => .error .invalidHex
      else .ok entropy
    | none => .ok entropy
  match saltR with
  | .error e => .error e
  | .ok salt =>
    .ok (bytesToHex (sha256 (salt ++ utf8Encode password)), bytesToHex salt)

/-! ## Data model and application state -/

/-- An HTTP failure (`HTTPException(status_code, detail)`). -/
structure HTTPError where
  status : Nat
  detail : String
deriving DecidableEq, Repr

/-- A record of the `userauth` collection, as written by `signup`
(`_id` stringified, timestamps abstracted to a `Nat` clock). -/
structure UserDoc where
  id : String
  name : String
  email : String
  password_hash : String
  salt : String
  created_at : Nat
  updated_at : Nat
deriving DecidableEq, Repr

/-- A record of the `appointment` collection, as written by
`create_appointment`. -/
structure ApptDoc where
  id : String
  user_id : String
  name : String
  phone : String
  car_model : String
  datetime_iso : String
  purpose : String
  created_at : Nat
  updated_at : Nat
deriving DecidableEq, Repr

/-- Whole-application state.  `users` and `appts` are the two MongoDB
collections in insertion order; `sessions` is the in-memory token → user-id
dict.  Modelled from the spec: the `database` module providing the `db`
handle is not under `src/`; the handlers' `if not db` truthiness test is
modelled as the flag `dbOk` (store configured/available), per the spec's
"store unavailable → 500, a server-side failure". -/
structure AppState where
  dbOk : Bool
  users : List UserDoc
  appts : List ApptDoc
  sessions : List (String × String)
deriving DecidableEq, Repr

/-- Python dict lookup (`sessions[token]` / `token in sessions`). -/
def dictLookup (d : List (String × String)) (k : String) : Option String :=
  (d.find? (fun p => p.1 == k)).map Prod.snd

/-- Python dict assignment `d[k] = v`: overwrite the existing binding in
place, else append (insertion order preserved). -/
def dictInsert : List (String × String) → String → String → List (String × String)
  | [], k, v => [(k, v)]
  | p :: d, k, v => if p.1 == k then (k, v) :: d else p :: dictInsert d k v

/-- Helper `get_user_by_email`: `db["userauth"].find_one({"email": email})`, the
first record with that exact email. -/
def get_user_by_email (users : List UserDoc) (email : String) : Option UserDoc :=
  users.find? (fun u => u.email == email)

/-- The `user` summary in an `AuthResponse`. -/
structure AuthUserView where
  id : String
  name : String
  email : String
deriving DecidableEq, Repr

/-- The `AuthResponse` body: token plus user summary. -/
structure AuthResponse where
  token : String
  user : AuthUserView
deriving DecidableEq, Repr

/-- Endpoint `signup`: 500 if the db handle is falsy; 400 if the email is taken;
otherwise hash with a fresh salt, insert the user document, bind a fresh
token (`secrets.token_hex(24)`, passed in as `token`) and return it.
`saltEntropy` stands for `secrets.token_bytes(16)`, `newId` for the
generated Mongo `_id`, `now` for `datetime.utcnow()`. -/
def signup (st : AppState) (saltEntropy : List Nat) (newId token : String)
    (now : Nat) (name email password : String) :
    Except HTTPError AuthResponse × AppState :=
  if !st.dbOk then (.error ⟨500, "Database not configured"⟩, st)
  else
    match get_user_by_email st.users email with
    | some _ => (.error ⟨400, "Email already registered"⟩, st)
    | none =>
      match hash_password saltEntropy password none with
      | .error _ => (.error ⟨500, "Internal Server Error"⟩, st)
      | .ok (pwd_hash, salt) =>
        let user : UserDoc := ⟨newId, name, email, pwd_hash, salt, now, now⟩
        (.ok ⟨token, ⟨newId, name, email⟩⟩,
         { st with users := st.users ++ [user],
                   sessions := dictInsert st.sessions token newId })

/-- Endpoint `login`: 500 if the db handle is falsy; 401 `"Invalid credentials"` if no
user has the email or the recomputed hash mismatches; otherwise bind a fresh
token to the user's id and return it.  `saltEntropy` is only consulted if the
stored salt is falsy (empty). -/
def login (st : AppState) (saltEntropy : List Nat) (token : String)
    (email password : String) : Except HTTPError AuthResponse × AppState :=
  if !st.dbOk then (.error ⟨500, "Database not configured"⟩, st)
  else
    match get_user_by_email st.users email with
    | none => (.error ⟨401, "Invalid credentials"⟩, st)
    | some user =>
      match hash_password saltEntropy password (some user.salt) with
      | .error _ => (.error ⟨500, "Internal Server Error"⟩, st)
      | .ok (pwd_hash, _) =>
        if pwd_hash ≠ user.password_hash then
          (.error ⟨401, "Invalid credentials"⟩, st)
        else
          (.ok ⟨token, ⟨user.id, user.name, user.email⟩⟩,
           { st with sessions := dictInsert st.sessions token user.id })

/-- Dependency `require_auth`: 401 `"Unauthorized"` when the token is absent, falsy
(empty) or not a key of `sessions`; otherwise the bound user id. -/
def require_auth (sessions : List (String × String)) (token : Option String) :
    Except HTTPError String :=
  match token with
  | none => .error ⟨401, "Unauthorized"⟩
  | some t =>
    if t = "" then .error ⟨401, "Unauthorized"⟩
    else
      match dictLookup sessions t with
      | none => .error ⟨401, "Unauthorized"⟩
      | some uid => .ok uid

/-- The `AppointmentRequest` payload. -/
structure AppointmentRequest where
  name : String
  phone : String
  car_model : String
  datetime_iso : String
  purpose : String
deriving DecidableEq, Repr

/-- Response of a successful `create_appointment`. -/
structure CreateApptResponse where
  id : String
  message : String
deriving DecidableEq, Repr

/-- Endpoint `create_appointment`: 500 if the db handle is falsy (checked first);
then `require_auth`; on success insert the appointment document owned by
the resolved user id. -/
def create_appointment (st : AppState) (newId : String) (now : Nat)
    (payload : AppointmentRequest) (token : Option String) :
    Except HTTPError CreateApptResponse × AppState :=
  if !st.dbOk then (.error ⟨500, "Database not configured"⟩, st)
  else
    match require_auth st.sessions token with
    | .error e => (.error e, st)
    | .ok user_id =>
      let doc : ApptDoc := ⟨newId, user_id, payload.name, payload.phone,
        payload.car_model, payload.datetime_iso, payload.purpose, now, now⟩
      (.ok ⟨newId, "Appointment booked successfully"⟩,
       { st with appts := st.appts ++ [doc] })

/-- Mongo's ascending sort key on the `datetime_iso` field: lexicographic
string order. -/
def apptDatetimeLe (a b : ApptDoc) : Prop := a.datetime_iso ≤ b.datetime_iso

instance : DecidableRel apptDatetimeLe := fun a b =>
  inferInstanceAs (Decidable (a.datetime_iso ≤ b.datetime_iso))

instance : IsTotal ApptDoc apptDatetimeLe := ⟨fun a b => le_total a.datetime_iso b.datetime_iso⟩

instance : IsTrans ApptDoc apptDatetimeLe := ⟨fun _ _ _ => le_trans⟩

/-- Endpoint `list_my_appointments`: 500 if the db handle is falsy (checked first);
then `require_auth`; on success
`db["appointment"].find({"user_id": user_id}).sort("datetime_iso", 1)`:
the appointments owned by the resolved user, sorted ascending by their
`datetime_iso` string. -/
def list_my_appointments (st : AppState) (token : Option String) :
    Except HTTPError (List ApptDoc) × AppState :=
  if !st.dbOk then (.error ⟨500, "Database not configured"⟩, st)
  else
    match require_auth st.sessions token with
    | .error e => (.error e, st)
    | .ok user_id =>
      (.ok (List.insertionSort apptDatetimeLe
              (st.appts.filter (fun a => a.user_id == user_id))), st)

/-- Folding a list of `issue` calls (token, user-id) into the registry. -/
def issueAll (d : List (String × String)) (issues : List (String × String)) :
    List (String × String) :=
  issues.foldl (fun acc tu => dictInsert acc tu.1 tu.2) d

/-! ## Helper lemmas: hex encoding -/

/-- A lowercase hex digit, as produced by Python's `bytes.hex()`. -/
def isLowerHexDigit (c : Char) : Bool :=
  ('0' ≤ c && c ≤ '9') || ('a' ≤ c && c ≤ 'f')

theorem hexVal_hexChar : ∀ n < 16, hexVal (hexChar n) = some n := by decide

theorem hexChar_not_ws : ∀ n < 16, isHexWs (hexChar n) = false := by decide

theorem isLowerHexDigit_hexChar : ∀ n < 16, isLowerHexDigit (hexChar n) = true := by decide

theorem bytesToHexList_length (bs : List Nat) :
    (bytesToHexList bs).length = 2 * bs.length := by
  induction bs with
  | nil => rfl
  | cons b bs ih => simp [bytesToHexList, ih]; ring

theorem bytesToHexList_lower (bs : List Nat) (hlt : ∀ b ∈ bs, b < 256) :
    ∀ c ∈ bytesToHexList bs, isLowerHexDigit c = true := by
  induction bs with
  | nil => intro c hc; cases hc
  | cons b bs ih =>
    have hb : b < 256 := hlt b (List.mem_cons_self _ _)
    intro c hc
    rcases hc with _ | ⟨_, hc⟩
    · exact isLowerHexDigit_hexChar _ (Nat.div_lt_of_lt_mul (show b < 16 * 16 by omega))
    · rcases hc with _ | ⟨_, hc⟩
      · exact isLowerHexDigit_hexChar _ (Nat.mod_lt _ (by omega))
      · exact ih (fun x hx => hlt x (List.mem_cons_of_mem _ hx)) c hc

theorem bytesFromHexList_bytesToHexList (bs : List Nat) (hlt : ∀ b ∈ bs, b < 256) :
    bytesFromHexList (bytesToHexList bs) = some bs := by
  induction bs with
  | nil => rfl
  | cons b bs ih =>
    have hb : b < 256 := hlt b (List.mem_cons_self _ _)
    have hdiv : b / 16 < 16 := Nat.div_lt_of_lt_mul (show b < 16 * 16 by omega)
    have hmod : b % 16 < 16 := Nat.mod_lt _ (by omega)
    have hrest := ih (fun x hx => hlt x (List.mem_cons_of_mem _ hx))
    simp [bytesToHexList, bytesFromHexList, hexChar_not_ws _ hdiv,
          hexVal_hexChar _ hdiv, hexVal_hexChar _ hmod, hrest]
    omega

theorem bytesFromHex_bytesToHex (bs : List Nat) (hlt : ∀ b ∈ bs, b < 256) :
    bytesFromHex (bytesToHex bs) = some bs :=
  bytesFromHexList_bytesToHexList bs hlt

theorem bytesToHex_injOn (bs1 bs2 : List Nat) (h1 : ∀ b ∈ bs1, b < 256)
    (h2 : ∀ b ∈ bs2, b < 256) (heq : bytesToHex bs1 = bytesToHex bs2) :
    bs1 = bs2 := by
  have := bytesFromHex_bytesToHex bs1 h1
  rw [heq, bytesFromHex_bytesToHex bs2 h2] at this
  exact (Option.some.injEq _ _ ▸ this).symm

/-! ## Helper lemmas: SHA-256 digest shape -/

theorem be32_lt (n : Nat) : ∀ x ∈ be32 n, x < 256 := by
  intro x hx
  simp [be32] at hx
  rcases hx with rfl | rfl | rfl | rfl <;> exact Nat.mod_lt _ (by omega)

theorem shaOut_length (st : SHAState) : (shaOut st).length = 32 := by
  simp [shaOut, be32]

theorem shaOut_lt (st : SHAState) : ∀ x ∈ shaOut st, x < 256 := by
  intro x hx
  simp only [shaOut, List.mem_append] at hx
  rcases hx with ((((((h | h) | h) | h) | h) | h) | h) | h <;> exact be32_lt _ x h

theorem sha256_length (msg : List Nat) : (sha256 msg).length = 32 :=
  shaOut_length _

theorem sha256_lt (msg : List Nat) : ∀ x ∈ sha256 msg, x < 256 :=
  shaOut_lt _

/-- The hex digest of any SHA-256 output has 64 characters, all lowercase
hex digits. -/
theorem sha256_hexdigest_shape (msg : List Nat) :
    (bytesToHex (sha256 msg)).data.length = 64 ∧
    ∀ c ∈ (bytesToHex (sha256 msg)).data, isLowerHexDigit c = true := by
  constructor
  · show (bytesToHexList (sha256 msg)).length = 64
    rw [bytesToHexList_length, sha256_length]
  · exact bytesToHexList_lower _ (sha256_lt msg)

/-! ## Helper lemmas: dict and session registry -/

theorem dictLookup_nil (k : String) : dictLookup [] k = none := rfl

theorem dictLookup_cons (p : String × String) (d : List (String × String))
    (k : String) :
    dictLookup (p :: d) k = if p.1 == k then some p.2 else dictLookup d k := by
  by_cases h : p.1 == k <;> simp [dictLookup, List.find?, h]

theorem dictLookup_insert_self (d : List (String × String)) (k v : String) :
    dictLookup (dictInsert d k v) k = some v := by
  induction d with
  | nil => simp [dictInsert, dictLookup_cons, dictLookup_nil]
  | cons p d ih =>
    by_cases h : p.1 == k
    · simp [dictInsert, h, dictLookup_cons]
    · simp [dictInsert, h, dictLookup_cons, ih]

theorem dictLookup_insert_ne (d : List (String × String)) (k v k' : String)
    (hne : k' ≠ k) : dictLookup (dictInsert d k v) k' = dictLookup d k' := by
  have hkk : (k == k') = false := by
    simp only [beq_eq_false_iff_ne, ne_eq]
    exact fun h => hne h.symm
  induction d with
  | nil => simp [dictInsert, dictLookup_cons, dictLookup_nil, hkk]
  | cons p d ih =>
    by_cases h : p.1 == k
    · have hpk : p.1 = k := by simpa using h
      simp [dictInsert, h, dictLookup_cons, hkk, hpk]
    · simp [dictInsert, h, dictLookup_cons, ih]

theorem issueAll_nil (d : List (String × String)) : issueAll d [] = d := rfl

theorem issueAll_cons (d : List (String × String)) (tu : String × String)
    (issues : List (String × String)) :
    issueAll d (tu :: issues) = issueAll (dictInsert d tu.1 tu.2) issues := rfl

theorem dictLookup_issueAll_notMem (issues : List (String × String))
    (d : List (String × String)) (t : String)
    (h : t ∉ issues.map Prod.fst) :
    dictLookup (issueAll d issues) t = dictLookup d t := by
  induction issues generalizing d with
  | nil => rfl
  | cons tu rest ih =>
    simp only [List.map_cons, List.mem_cons, not_or] at h
    rw [issueAll_cons, ih _ h.2, dictLookup_insert_ne _ _ _ _ h.1]

theorem dictLookup_issueAll_mem (issues : List (String × String))
    (d : List (String × String)) (t u : String)
    (hnd : (issues.map Prod.fst).Nodup) (hmem : (t, u) ∈ issues) :
    dictLookup (issueAll d issues) t = some u := by
  induction issues generalizing d with
  | nil => cases hmem
  | cons tu rest ih =>
    simp only [List.map_cons, List.nodup_cons] at hnd
    rcases List.mem_cons.mp hmem with heq | hrest
    · subst heq
      rw [issueAll_cons, dictLookup_issueAll_notMem _ _ _ hnd.1,
          dictLookup_insert_self]
    · exact ih _ hnd.2 hrest

/-! ## Helper lemmas: `require_auth` and `hash_password` -/

theorem require_auth_none (s : List (String × String)) :
    require_auth s none = .error ⟨401, "Unauthorized"⟩ := rfl

theorem require_auth_some (s : List (String × String)) (t : String) :
    require_auth s (some t) =
      if t = "" then .error ⟨401, "Unauthorized"⟩
      else
        match dictLookup s t with
        | none => .error ⟨401, "Unauthorized"⟩
        | some uid => .ok uid := rfl

theorem require_auth_ok_iff (s : List (String × String)) (tok : Option String)
    (uid : String) :
    require_auth s tok = .ok uid ↔
      ∃ t, tok = some t ∧ t ≠ "" ∧ dictLookup s t = some uid := by
  cases tok with
  | none => simp [require_auth]
  | some t =>
    rw [require_auth_some]
    by_cases h : t = ""
    · simp [h]
    · cases hl : dictLookup s t <;> simp [h, hl, eq_comm]

theorem require_auth_error_iff (s : List (String × String)) (tok : Option String) :
    require_auth s tok = .error ⟨401, "Unauthorized"⟩ ↔
      (tok = none ∨ tok = some "" ∨
        ∃ t, tok = some t ∧ dictLookup s t = none) := by
  cases tok with
  | none => simp [require_auth]
  | some t =>
    rw [require_auth_some]
    by_cases h : t = ""
    · simp [h]
    · cases hl : dictLookup s t <;> simp [h, hl]

theorem hash_password_no_salt (e : List Nat) (p : String) :
    hash_password e p none =
      .ok (bytesToHex (sha256 (e ++ utf8Encode p)), bytesToHex e) := rfl

theorem hash_password_empty_salt (e : List Nat) (p : String) :
    hash_password e p (some "") = hash_password e p none := rfl

theorem hash_password_valid_salt (e : List Nat) (p s : String) (bs : List Nat)
    (hne : s ≠ "") (hdec : bytesFromHex s = some bs) :
    hash_password e p (some s) =
      .ok (bytesToHex (sha256 (bs ++ utf8Encode p)), bytesToHex bs) := by
  simp [hash_password, hne, hdec]

theorem hash_password_invalid_salt (e : List Nat) (p s : String)
    (hne : s ≠ "") (hdec : bytesFromHex s = none) :
    hash_password e p (some s) = .error .invalidHex := by
  simp [hash_password, hne, hdec]

theorem hash_password_error_iff (e : List Nat) (p : String) (so : Option String) :
    (∃ err, hash_password e p so = .error err) ↔
      ∃ s, so = some s ∧ s ≠ "" ∧ bytesFromHex s = none := by
  cases so with
  | none => simp [hash_password_no_salt]
  | some s =>
    by_cases h : s = ""
    · subst h
      simp [hash_password_empty_salt, hash_password_no_salt]
    · cases hd : bytesFromHex s with
      | none =>
        rw [hash_password_invalid_salt e p s h hd]
        exact ⟨fun _ => ⟨s, rfl, h, hd⟩, fun _ => ⟨.invalidHex, rfl⟩⟩
      | some bs => simp [hash_password_valid_salt e p s bs h hd, h, hd]

/-! ## Helper lemmas: user store -/

theorem get_user_by_email_append_new (users : List UserDoc) (u : UserDoc)
    (email : String) (hnone : get_user_by_email users email = none)
    (hmatch : u.email = email) :
    get_user_by_email (users ++ [u]) email = some u := by
  unfold get_user_by_email at *
  rw [List.find?_append, hnone]
  simp [List.find?, hmatch]

theorem bytesToHex_ne_empty (bs : List Nat) (h : bs ≠ []) :
    bytesToHex bs ≠ "" := by
  cases bs with
  | nil => exact absurd rfl h
  | cons b t =>
    intro heq
    have := congrArg String.data heq
    simp [bytesToHex, bytesToHexList] at this

/-! ## Claims -/

/-- C2: `require_auth` fails with 401 `"Unauthorized"` exactly when the token
is absent, the empty string, or not a key of the session registry; and every
token bound by a sequence of `issue` calls (with the issued tokens nonempty
and pairwise distinct, as fresh `secrets.token_hex(24)` values are up to
negligible collisions) resolves to the user id it was bound to. -/
theorem C2_resolve_characterization (s : List (String × String))
    (tok : Option String) (issues : List (String × String)) (t u : String)
    (hnd : (issues.map Prod.fst).Nodup)
    (hne : ∀ tu ∈ issues, tu.1 ≠ "")
    (hmem : (t, u) ∈ issues) :
    (require_auth s tok = .error ⟨401, "Unauthorized"⟩ ↔
      (tok = none ∨ tok = some "" ∨
        ∃ t', tok = some t' ∧ dictLookup s t' = none)) ∧
    require_auth (issueAll [] issues) (some t) = .ok u := by
  refine ⟨require_auth_error_iff s tok, ?_⟩
  rw [require_auth_ok_iff]
  exact ⟨t, rfl, hne (t, u) hmem, dictLookup_issueAll_mem issues [] t u hnd hmem⟩

/-- C2 witness: a concrete registry and a concrete two-token issuance. -/
theorem C2_resolve_characterization_witness :
    (require_auth [("tokA", "ua")] (some "missing") = .error ⟨401, "Unauthorized"⟩ ↔
      ((some "missing" : Option String) = none ∨ some "missing" = some "" ∨
        ∃ t', some "missing" = some t' ∧ dictLookup [("tokA", "ua")] t' = none)) ∧
    require_auth (issueAll [] [("t1", "ua"), ("t2", "ub")]) (some "t1") = .ok "ua" :=
  C2_resolve_characterization [("tokA", "ua")] (some "missing")
    [("t1", "ua"), ("t2", "ub")] "t1" "ua" (by decide) (by decide) (by decide)

/-- C5 counterexample: the hasher does not return the supplied salt string
itself; for the well-formed hex salt `"AB"` it returns the lowercase
re-rendering `"ab"` of the decoded salt bytes. -/
theorem C5_counterexample :
    (hash_password [] "pw" (some "AB")).toOption.map Prod.snd = some "ab" ∧
    "ab" ≠ "AB" := by
  exact ⟨by decide, by decide⟩

/-- C5 (amended): for a nonempty salt string that decodes to bytes `bs`,
`hash_password` returns the lowercase-hex rendering of the SHA-256 digest of
the salt bytes concatenated with the UTF-8 password, together with the
lowercase-hex re-rendering of the salt bytes — which equals the supplied
string whenever that string is itself the lowercase-hex rendering of a byte
sequence; the digest has 64 lowercase hex characters (a fixed-size digest),
and the result is deterministic (independent of the entropy argument). -/
theorem C5_hash_digest_shape (e : List Nat) (p s : String) (bs : List Nat)
    (hne : s ≠ "") (hdec : bytesFromHex s = some bs) :
    hash_password e p (some s) =
      .ok (bytesToHex (sha256 (bs ++ utf8Encode p)), bytesToHex bs) ∧
    (bytesToHex (sha256 (bs ++ utf8Encode p))).data.length = 64 ∧
    (∀ c ∈ (bytesToHex (sha256 (bs ++ utf8Encode p))).data,
      isLowerHexDigit c = true) ∧
    (∀ bs', (∀ b ∈ bs', b < 256) → s = bytesToHex bs' → bytesToHex bs = s) ∧
    (∀ e', hash_password e' p (some s) = hash_password e p (some s)) := by
  refine ⟨hash_password_valid_salt e p s bs hne hdec,
    (sha256_hexdigest_shape _).1, (sha256_hexdigest_shape _).2, ?_, ?_⟩
  · intro bs' hb' hs
    have : bytesFromHex s = some bs' := hs ▸ bytesFromHex_bytesToHex bs' hb'
    rw [hdec] at this
    rw [hs]
    exact congrArg bytesToHex (Option.some.inj this)
  · intro e'
    rw [hash_password_valid_salt e' p s bs hne hdec,
        hash_password_valid_salt e p s bs hne hdec]

/-- C5 witness: the canonical salt `"ab"` decodes and is returned unchanged. -/
theorem C5_hash_digest_shape_witness :
    hash_password [] "pw" (some "ab") =
      .ok (bytesToHex (sha256 ([171] ++ utf8Encode "pw")), bytesToHex [171]) ∧
    (bytesToHex (sha256 ([171] ++ utf8Encode "pw"))).data.length = 64 ∧
    (∀ c ∈ (bytesToHex (sha256 ([171] ++ utf8Encode "pw"))).data,
      isLowerHexDigit c = true) ∧
    (∀ bs', (∀ b ∈ bs', b < 256) → "ab" = bytesToHex bs' → bytesToHex [171] = "ab") ∧
    (∀ e', hash_password e' "pw" (some "ab") = hash_password [] "pw" (some "ab")) :=
  C5_hash_digest_shape [] "pw" "ab" [171] (by decide) (by decide)

/-- C8: for a nonempty salt string, `hash_password` fails (with the
`ValueError` the spec's taxonomy calls `ValidationError`) precisely when the
string is not accepted by `bytes.fromhex`; this is the hasher's only failure
mode: on any input, it fails iff a nonempty non-hex salt string was given. -/
theorem C8_hasher_failure (e : List Nat) (p s : String) (so : Option String) :
    ((s ≠ "" ∧ bytesFromHex s = none) →
      hash_password e p (some s) = .error .invalidHex) ∧
    ((∃ err, hash_password e p so = .error err) ↔
      ∃ s', so = some s' ∧ s' ≠ "" ∧ bytesFromHex s' = none) := by
  exact ⟨fun h => hash_password_invalid_salt e p s h.1 h.2,
    hash_password_error_iff e p so⟩

/-- C8 witness: the non-hex salt `"zz"` fails with the validation error, and
the hasher succeeds on a valid-hex salt (instantiating both directions of the
only-failure iff at concrete inputs). -/
theorem C8_hasher_failure_witness :
    hash_password [] "pw" (some "zz") = .error .invalidHex ∧
    ¬ ∃ err, hash_password [] "pw" (some "ab") = .error err :=
  ⟨(C8_hasher_failure [] "pw" "zz" (some "zz")).1 ⟨by decide, by decide⟩,
   fun h => by
    rcases (C8_hasher_failure [] "pw" "zz" (some "ab")).2.mp h with ⟨s', hs, _, hd⟩
    rw [← Option.some.inj hs] at hd
    exact absurd hd (by decide)⟩

/-- C9 counterexample: with the database handle unconfigured, a request to
`create_appointment` with an absent bearer token is answered 500, not 401 —
the handlers test `if not db` before calling `require_auth`, so the
authentication-failure outcome does depend on store availability. -/
theorem C9_counterexample :
    (create_appointment ⟨false, [], [], []⟩ "a1" 0 ⟨"n", "p", "c", "d", "x"⟩ none).1 =
      .error ⟨500, "Database not configured"⟩ ∧
    (⟨500, "Database not configured"⟩ : HTTPError) ≠ ⟨401, "Unauthorized"⟩ := by
  exact ⟨rfl, by decide⟩

/-- C9 (amended): when the database handle is configured, a request to either
protected endpoint whose bearer token is absent, empty, or unknown is
answered 401 `"Unauthorized"` and no further processing occurs: the state —
in particular the appointment collection — is returned unchanged. -/
theorem C9_unauthorized_no_processing (st : AppState) (tok : Option String)
    (newId : String) (now : Nat) (payload : AppointmentRequest)
    (hdb : st.dbOk = true)
    (hbad : require_auth st.sessions tok = .error ⟨401, "Unauthorized"⟩) :
    create_appointment st newId now payload tok =
      (.error ⟨401, "Unauthorized"⟩, st) ∧
    list_my_appointments st tok = (.error ⟨401, "Unauthorized"⟩, st) := by
  unfold create_appointment list_my_appointments
  simp [hdb, hbad]

/-- C9 witness: a configured state with an unknown token. -/
theorem C9_unauthorized_no_processing_witness :
    create_appointment ⟨true, [], [], [("t1", "u1")]⟩ "a1" 0
        ⟨"n", "p", "c", "d", "x"⟩ (some "nope") =
      (.error ⟨401, "Unauthorized"⟩, ⟨true, [], [], [("t1", "u1")]⟩) ∧
    list_my_appointments ⟨true, [], [], [("t1", "u1")]⟩ (some "nope") =
      (.error ⟨401, "Unauthorized"⟩, ⟨true, [], [], [("t1", "u1")]⟩) :=
  C9_unauthorized_no_processing ⟨true, [], [], [("t1", "u1")]⟩ (some "nope")
    "a1" 0 ⟨"n", "p", "c", "d", "x"⟩ rfl rfl

/-- C10: an empty-string salt argument is treated exactly like no salt at
all: the same fresh 16-byte entropy is used and its lowercase-hex rendering
is returned as salt, so the call succeeds (no error, no deterministic
empty-salt hashing), and two calls seeing different fresh entropy return
different salts. -/
theorem C10_empty_salt_fresh (e e1 e2 : List Nat) (p : String)
    (h1 : ∀ b ∈ e1, b < 256) (h2 : ∀ b ∈ e2, b < 256) (hne : e1 ≠ e2) :
    hash_password e p (some "") = hash_password e p none ∧
    hash_password e p (some "") =
      .ok (bytesToHex (sha256 (e ++ utf8Encode p)), bytesToHex e) ∧
    bytesToHex e1 ≠ bytesToHex e2 := by
  exact ⟨rfl, rfl, fun h => hne (bytesToHex_injOn e1 e2 h1 h2 h)⟩

/-- C10 witness: two distinct concrete 16-byte entropies yield different
salts. -/
theorem C10_empty_salt_fresh_witness :
    hash_password [5] "pw" (some "") = hash_password [5] "pw" none ∧
    hash_password [5] "pw" (some "") =
      .ok (bytesToHex (sha256 ([5] ++ utf8Encode "pw")), bytesToHex [5]) ∧
    bytesToHex (List.replicate 16 0) ≠ bytesToHex (List.replicate 16 255) :=
  C10_empty_salt_fresh [5] (List.replicate 16 0) (List.replicate 16 255) "pw"
    (by decide) (by decide) (by decide)

/-- C1: a successful `create_appointment` stores as owner exactly the user id
that `require_auth` resolved from the bearer token — no payload field enters
the `user_id` column.  In particular, two calls with the identical payload
but tokens resolving to different users create appointments owned by those
respective users. -/
theorem C1_ownership_from_token (st : AppState) (p : AppointmentRequest)
    (t1 t2 : Option String) (u1 u2 id1 id2 : String) (n1 n2 : Nat)
    (hdb : st.dbOk = true)
    (h1 : require_auth st.sessions t1 = .ok u1)
    (h2 : require_auth st.sessions t2 = .ok u2) :
    create_appointment st id1 n1 p t1 =
      (.ok ⟨id1, "Appointment booked successfully"⟩,
       { st with
           appts := st.appts ++ [⟨id1, u1, p.name, p.phone, p.car_model,
             p.datetime_iso, p.purpose, n1, n1⟩] }) ∧
    create_appointment st id2 n2 p t2 =
      (.ok ⟨id2, "Appointment booked successfully"⟩,
       { st with
           appts := st.appts ++ [⟨id2, u2, p.name, p.phone, p.car_model,
             p.datetime_iso, p.purpose, n2, n2⟩] }) := by
  unfold create_appointment
  simp [hdb, h1, h2]

/-- C1 witness: identical payload, two tokens bound to different users. -/
theorem C1_ownership_from_token_witness :
    create_appointment ⟨true, [], [], [("ta", "ua"), ("tb", "ub")]⟩ "a1" 0
        ⟨"n", "p", "c", "d", "x"⟩ (some "ta") =
      (.ok ⟨"a1", "Appointment booked successfully"⟩,
       ⟨true, [], [⟨"a1", "ua", "n", "p", "c", "d", "x", 0, 0⟩],
        [("ta", "ua"), ("tb", "ub")]⟩) ∧
    create_appointment ⟨true, [], [], [("ta", "ua"), ("tb", "ub")]⟩ "a2" 0
        ⟨"n", "p", "c", "d", "x"⟩ (some "tb") =
      (.ok ⟨"a2", "Appointment booked successfully"⟩,
       ⟨true, [], [⟨"a2", "ub", "n", "p", "c", "d", "x", 0, 0⟩],
        [("ta", "ua"), ("tb", "ub")]⟩) :=
  C1_ownership_from_token ⟨true, [], [], [("ta", "ua"), ("tb", "ub")]⟩
    ⟨"n", "p", "c", "d", "x"⟩ (some "ta") (some "tb") "ua" "ub" "a1" "a2" 0 0
    rfl rfl rfl

/-- C3: a login failing because no user has the email and a login failing
because the recomputed digest mismatches the stored `password_hash` produce
the identical outcome: 401 with the generic `"Invalid credentials"` detail
and an unchanged state — the two runs are indistinguishable to the caller. -/
theorem C3_login_failure_indistinguishable (st st' : AppState)
    (e1 e2 : List Nat) (tk1 tk2 em1 pw1 em2 pw2 : String)
    (u : UserDoc) (d salt : String)
    (hdb : st.dbOk = true) (hdb' : st'.dbOk = true)
    (hnouser : get_user_by_email st.users em1 = none)
    (huser : get_user_by_email st'.users em2 = some u)
    (hhash : hash_password e2 pw2 (some u.salt) = .ok (d, salt))
    (hmismatch : d ≠ u.password_hash) :
    login st e1 tk1 em1 pw1 = (.error ⟨401, "Invalid credentials"⟩, st) ∧
    login st' e2 tk2 em2 pw2 = (.error ⟨401, "Invalid credentials"⟩, st') ∧
    (login st e1 tk1 em1 pw1).1 = (login st' e2 tk2 em2 pw2).1 := by
  have hA : login st e1 tk1 em1 pw1 = (.error ⟨401, "Invalid credentials"⟩, st) := by
    unfold login
    simp [hdb, hnouser]
  have hB : login st' e2 tk2 em2 pw2 = (.error ⟨401, "Invalid credentials"⟩, st') := by
    unfold login
    simp [hdb', huser, hhash, hmismatch]
  exact ⟨hA, hB, by rw [hA, hB]⟩

/-- C3 witness: an unregistered email versus a wrong password for an existing
user. -/
theorem C3_login_failure_indistinguishable_witness :
    login ⟨true, [], [], []⟩ [] "tk1" "a@x.com" "pw" =
      (.error ⟨401, "Invalid credentials"⟩, ⟨true, [], [], []⟩) ∧
    login ⟨true, [⟨"u1", "Bob", "b@x.com", "nothash", "00", 0, 0⟩], [], []⟩
        [] "tk2" "b@x.com" "pw" =
      (.error ⟨401, "Invalid credentials"⟩,
       ⟨true, [⟨"u1", "Bob", "b@x.com", "nothash", "00", 0, 0⟩], [], []⟩) ∧
    (login ⟨true, [], [], []⟩ [] "tk1" "a@x.com" "pw").1 =
      (login ⟨true, [⟨"u1", "Bob", "b@x.com", "nothash", "00", 0, 0⟩], [], []⟩
        [] "tk2" "b@x.com" "pw").1 :=
  C3_login_failure_indistinguishable ⟨true, [], [], []⟩
    ⟨true, [⟨"u1", "Bob", "b@x.com", "nothash", "00", 0, 0⟩], [], []⟩
    [] [] "tk1" "tk2" "a@x.com" "pw" "b@x.com" "pw"
    ⟨"u1", "Bob", "b@x.com", "nothash", "00", 0, 0⟩
    (bytesToHex (sha256 ([0] ++ utf8Encode "pw"))) (bytesToHex [0])
    rfl rfl rfl rfl rfl (by decide)

/-- C6: listing appointments returns exactly the appointments owned by the
resolved user — a permutation of the owner-filtered collection, membership
iff owned — sorted ascending by the `datetime_iso` string (lexicographic);
a user owning none receives `[]` even when other users have appointments. -/
theorem C6_list_sorted_owned (st : AppState) (tok : Option String) (uid : String)
    (hdb : st.dbOk = true)
    (hauth : require_auth st.sessions tok = .ok uid) :
    list_my_appointments st tok =
      (.ok (List.insertionSort apptDatetimeLe
        (st.appts.filter (fun a => a.user_id == uid))), st) ∧
    (List.insertionSort apptDatetimeLe
      (st.appts.filter (fun a => a.user_id == uid))).Perm
        (st.appts.filter (fun a => a.user_id == uid)) ∧
    (∀ a, a ∈ List.insertionSort apptDatetimeLe
        (st.appts.filter (fun a => a.user_id == uid)) ↔
      (a ∈ st.appts ∧ a.user_id = uid)) ∧
    List.Sorted apptDatetimeLe
      (List.insertionSort apptDatetimeLe
        (st.appts.filter (fun a => a.user_id == uid))) ∧
    ((∀ a ∈ st.appts, a.user_id ≠ uid) →
      List.insertionSort apptDatetimeLe
        (st.appts.filter (fun a => a.user_id == uid)) = []) := by
  refine ⟨?_, List.perm_insertionSort _ _, ?_, List.sorted_insertionSort _ _, ?_⟩
  · unfold list_my_appointments
    simp [hdb, hauth]
  · intro a
    rw [(List.perm_insertionSort apptDatetimeLe _).mem_iff]
    simp [List.mem_filter]
  · intro h
    have : st.appts.filter (fun a => a.user_id == uid) = [] := by
      rw [List.filter_eq_nil_iff]
      intro a ha
      simpa using h a ha
    rw [this]
    rfl

/-- C6 witness: user `ua` owns two appointments listed in ascending
`datetime_iso` order; the listing ignores user `ub`'s appointment. -/
theorem C6_list_sorted_owned_witness :
    list_my_appointments ⟨true, [],
        [⟨"a1", "ua", "n", "p", "c", "2024-03-01T09:00:00", "x", 0, 0⟩,
         ⟨"a2", "ub", "n", "p", "c", "2024-01-05T08:00:00", "x", 0, 0⟩,
         ⟨"a3", "ua", "n", "p", "c", "2024-01-01T10:00:00", "x", 0, 0⟩],
        [("ta", "ua")]⟩ (some "ta") =
      (.ok (List.insertionSort apptDatetimeLe
        (([⟨"a1", "ua", "n", "p", "c", "2024-03-01T09:00:00", "x", 0, 0⟩,
           ⟨"a2", "ub", "n", "p", "c", "2024-01-05T08:00:00", "x", 0, 0⟩,
           ⟨"a3", "ua", "n", "p", "c", "2024-01-01T10:00:00", "x", 0, 0⟩] :
          List ApptDoc).filter (fun a => a.user_id == "ua"))),
       ⟨true, [],
        [⟨"a1", "ua", "n", "p", "c", "2024-03-01T09:00:00", "x", 0, 0⟩,
         ⟨"a2", "ub", "n", "p", "c", "2024-01-05T08:00:00", "x", 0, 0⟩,
         ⟨"a3", "ua", "n", "p", "c", "2024-01-01T10:00:00", "x", 0, 0⟩],
        [("ta", "ua")]⟩) ∧
    List.insertionSort apptDatetimeLe
        (([⟨"a1", "ua", "n", "p", "c", "2024-03-01T09:00:00", "x", 0, 0⟩,
           ⟨"a2", "ub", "n", "p", "c", "2024-01-05T08:00:00", "x", 0, 0⟩,
           ⟨"a3", "ua", "n", "p", "c", "2024-01-01T10:00:00", "x", 0, 0⟩] :
          List ApptDoc).filter (fun a => a.user_id == "ua")) =
      [⟨"a3", "ua", "n", "p", "c", "2024-01-01T10:00:00", "x", 0, 0⟩,
       ⟨"a1", "ua", "n", "p", "c", "2024-03-01T09:00:00", "x", 0, 0⟩] := by
  refine ⟨(C6_list_sorted_owned ⟨true, [],
      [⟨"a1", "ua", "n", "p", "c", "2024-03-01T09:00:00", "x", 0, 0⟩,
       ⟨"a2", "ub", "n", "p", "c", "2024-01-05T08:00:00", "x", 0, 0⟩,
       ⟨"a3", "ua", "n", "p", "c", "2024-01-01T10:00:00", "x", 0, 0⟩],
      [("ta", "ua")]⟩ (some "ta") "ua" rfl rfl).1, ?_⟩
  have hfilter : (([⟨"a1", "ua", "n", "p", "c", "2024-03-01T09:00:00", "x", 0, 0⟩,
       ⟨"a2", "ub", "n", "p", "c", "2024-01-05T08:00:00", "x", 0, 0⟩,
       ⟨"a3", "ua", "n", "p", "c", "2024-01-01T10:00:00", "x", 0, 0⟩] :
      List ApptDoc).filter (fun a => a.user_id == "ua")) =
      [⟨"a1", "ua", "n", "p", "c", "2024-03-01T09:00:00", "x", 0, 0⟩,
       ⟨"a3", "ua", "n", "p", "c", "2024-01-01T10:00:00", "x", 0, 0⟩] := by
    decide
  rw [hfilter]
  have h2 : ¬ apptDatetimeLe
      ⟨"a1", "ua", "n", "p", "c", "2024-03-01T09:00:00", "x", 0, 0⟩
      ⟨"a3", "ua", "n", "p", "c", "2024-01-01T10:00:00", "x", 0, 0⟩ := by
    show ¬ (("2024-03-01T09:00:00" : String) ≤ "2024-01-01T10:00:00")
    rw [String.le_iff_toList_le]
    decide
  simp only [List.insertionSort, List.orderedInsert]
  rw [if_neg h2]

/-- C7: when no stored user has the email, the first signup succeeds; an
immediately following signup with the same email fails with 400
`"Email already registered"` and returns the state unchanged — the
`get_user_by_email` check happens before any insert. -/
theorem C7_duplicate_email_conflict (st : AppState) (e1 : List Nat)
    (id1 tok1 : String) (n1 : Nat) (name1 email pw1 : String)
    (e2 : List Nat) (id2 tok2 : String) (n2 : Nat) (name2 pw2 : String)
    (hdb : st.dbOk = true)
    (hfresh : get_user_by_email st.users email = none) :
    (signup st e1 id1 tok1 n1 name1 email pw1).1 =
      .ok ⟨tok1, ⟨id1, name1, email⟩⟩ ∧
    signup (signup st e1 id1 tok1 n1 name1 email pw1).2 e2 id2 tok2 n2
        name2 email pw2 =
      (.error ⟨400, "Email already registered"⟩,
       (signup st e1 id1 tok1 n1 name1 email pw1).2) := by
  have hst1 : signup st e1 id1 tok1 n1 name1 email pw1 =
      (.ok ⟨tok1, ⟨id1, name1, email⟩⟩,
       { st with
           users := st.users ++ [⟨id1, name1, email,
             bytesToHex (sha256 (e1 ++ utf8Encode pw1)), bytesToHex e1, n1, n1⟩],
           sessions := dictInsert st.sessions tok1 id1 }) := by
    unfold signup
    simp [hdb, hfresh, hash_password_no_salt]
  have hfind := get_user_by_email_append_new st.users
    ⟨id1, name1, email, bytesToHex (sha256 (e1 ++ utf8Encode pw1)),
     bytesToHex e1, n1, n1⟩ email hfresh rfl
  constructor
  · rw [hst1]
  · rw [hst1]
    unfold signup
    simp [hdb, hfind]

/-- C7 witness: two concrete signups with the same email. -/
theorem C7_duplicate_email_conflict_witness :
    (signup ⟨true, [], [], []⟩ [7] "u1" "t1" 0 "Alice" "a@x.com" "pw").1 =
      .ok ⟨"t1", ⟨"u1", "Alice", "a@x.com"⟩⟩ ∧
    signup (signup ⟨true, [], [], []⟩ [7] "u1" "t1" 0 "Alice" "a@x.com" "pw").2
        [8] "u2" "t2" 1 "Alice2" "a@x.com" "pw2" =
      (.error ⟨400, "Email already registered"⟩,
       (signup ⟨true, [], [], []⟩ [7] "u1" "t1" 0 "Alice" "a@x.com" "pw").2) :=
  C7_duplicate_email_conflict ⟨true, [], [], []⟩ [7] "u1" "t1" 0 "Alice"
    "a@x.com" "pw" [8] "u2" "t2" 1 "Alice2" "pw2" rfl rfl

/-- C4: signup followed immediately by login with the same email and password
succeeds and returns the fresh login token (the hash recomputed at login from
the stored hex salt equals the stored `password_hash`); a login with a wrong
password — one whose salted digest differs, which is what SHA-256's collision
resistance provides for distinct passwords — fails with 401. -/
theorem C4_signup_then_login (st : AppState) (entropy : List Nat)
    (newId tok : String) (now : Nat) (name email pw : String)
    (e2 e3 : List Nat) (tok2 tok3 : String) (pw' : String)
    (hdb : st.dbOk = true)
    (hfresh : get_user_by_email st.users email = none)
    (hlen : entropy.length = 16)
    (hbytes : ∀ b ∈ entropy, b < 256)
    (hcoll : sha256 (entropy ++ utf8Encode pw') ≠ sha256 (entropy ++ utf8Encode pw)) :
    (signup st entropy newId tok now name email pw).1 =
      .ok ⟨tok, ⟨newId, name, email⟩⟩ ∧
    login (signup st entropy newId tok now name email pw).2 e2 tok2 email pw =
      (.ok ⟨tok2, ⟨newId, name, email⟩⟩,
       { (signup st entropy newId tok now name email pw).2 with
         sessions := dictInsert
           (signup st entropy newId tok now name email pw).2.sessions tok2 newId }) ∧
    login (signup st entropy newId tok now name email pw).2 e3 tok3 email pw' =
      (.error ⟨401, "Invalid credentials"⟩,
       (signup st entropy newId tok now name email pw).2) := by
  have hst1 : signup st entropy newId tok now name email pw =
      (.ok ⟨tok, ⟨newId, name, email⟩⟩,
       { st with
           users := st.users ++ [⟨newId, name, email,
             bytesToHex (sha256 (entropy ++ utf8Encode pw)),
             bytesToHex entropy, now, now⟩],
           sessions := dictInsert st.sessions tok newId }) := by
    unfold signup
    simp [hdb, hfresh, hash_password_no_salt]
  have hentne : entropy ≠ [] := by
    intro h
    rw [h] at hlen
    exact absurd hlen (by decide)
  have hsalt_ne : bytesToHex entropy ≠ "" := bytesToHex_ne_empty entropy hentne
  have hdecode : bytesFromHex (bytesToHex entropy) = some entropy :=
    bytesFromHex_bytesToHex entropy hbytes
  have hfind := get_user_by_email_append_new st.users
    ⟨newId, name, email, bytesToHex (sha256 (entropy ++ utf8Encode pw)),
     bytesToHex entropy, now, now⟩ email hfresh rfl
  have hrehash := hash_password_valid_salt e2 pw (bytesToHex entropy) entropy
    hsalt_ne hdecode
  have hrehash' := hash_password_valid_salt e3 pw' (bytesToHex entropy) entropy
    hsalt_ne hdecode
  have hmm : bytesToHex (sha256 (entropy ++ utf8Encode pw')) ≠
      bytesToHex (sha256 (entropy ++ utf8Encode pw)) :=
    fun h => hcoll (bytesToHex_injOn _ _ (sha256_lt _) (sha256_lt _) h)
  refine ⟨by rw [hst1], ?_, ?_⟩
  · rw [hst1]
    unfold login
    simp [hdb, hfind, hrehash]
  · rw [hst1]
    unfold login
    simp [hdb, hfind, hrehash', hmm]

/-- C4 witness: a concrete signup, a successful re-login with the same
password, and a rejected login with a different password. -/
theorem C4_signup_then_login_witness :
    (signup ⟨true, [], [], []⟩ (List.replicate 16 0) "u1" "t1" 0 "Alice"
        "a@x.com" "pw").1 = .ok ⟨"t1", ⟨"u1", "Alice", "a@x.com"⟩⟩ ∧
    login (signup ⟨true, [], [], []⟩ (List.replicate 16 0) "u1" "t1" 0 "Alice"
        "a@x.com" "pw").2 [] "t2" "a@x.com" "pw" =
      (.ok ⟨"t2", ⟨"u1", "Alice", "a@x.com"⟩⟩,
       { (signup ⟨true, [], [], []⟩ (List.replicate 16 0) "u1" "t1" 0 "Alice"
            "a@x.com" "pw").2 with
         sessions := dictInsert
           (signup ⟨true, [], [], []⟩ (List.replicate 16 0) "u1" "t1" 0 "Alice"
              "a@x.com" "pw").2.sessions "t2" "u1" }) ∧
    login (signup ⟨true, [], [], []⟩ (List.replicate 16 0) "u1" "t1" 0 "Alice"
        "a@x.com" "pw").2 [] "t3" "a@x.com" "qq" =
      (.error ⟨401, "Invalid credentials"⟩,
       (signup ⟨true, [], [], []⟩ (List.replicate 16 0) "u1" "t1" 0 "Alice"
          "a@x.com" "pw").2) :=
  C4_signup_then_login ⟨true, [], [], []⟩ (List.replicate 16 0) "u1" "t1" 0
    "Alice" "a@x.com" "pw" [] [] "t2" "t3" "qq" rfl rfl (by decide) (by decide)
    (by decide)

end TrustCars
